import Mathlib

/-
Verification of the ironfish RPC IPC adapter (src/ironfish/src/rpc/adapters/ipcAdapter.ts)
and the streamed block chunk codec, against the repository specification.

Shallow embedding conventions:
- JavaScript structured values are modelled by the inductive type JsValue
  (numbers restricted to integers, which covers every value these claims touch).
- A possibly-undefined JS value is an Option JsValue (none models undefined).
- JSON.stringify is modelled by jsonStringify (returns none on undefined, matching
  the JS builtin which returns undefined rather than a string there).
- Buffer.from(string).byteLength is modelled by utf8ByteLength; Buffer.from applied
  to undefined throws a TypeError in Node, modelled by RunError.bufferFromUndefined.
- The adapter object's mutable fields are the structure RpcIpcAdapter; nullable
  object fields (this.server, this.httpServer, ...) are modelled by Bool flags
  that say whether the field is non-null.
- The external router (this.router) is modelled at each call site by the list of
  Request Context callback invocations it performs followed by its outcome;
  the value none models this.router === null.
- Thrown JS exceptions that escape a handler are modelled by the Option RunError
  component of each operation's result (none: no throw).
-/

/-- Model of a JavaScript structured (JSON-serializable) value. Numbers are
restricted to integers, which is sufficient for every claim considered here. -/
inductive JsValue where
  | null : JsValue
  | bool (b : Bool) : JsValue
  | num (n : Int) : JsValue
  | str (s : String) : JsValue
  | arr (elems : List JsValue) : JsValue
  | obj (fields : List (String × JsValue)) : JsValue

/-- Lookup in a JS object's field list (first binding wins), also used for the
adapter's Map objects. Models Map.prototype.get and JS property access. -/
def mapGet {α : Type} : List (String × α) → String → Option α
  | [], _ => none
  | (k, v) :: rest, key => if k = key then some v else mapGet rest key

/-- Models Map.prototype.set: replace the binding for the key, or append it. -/
def mapSet {α : Type} : List (String × α) → String → α → List (String × α)
  | [], key, v => [(key, v)]
  | (k, w) :: rest, key, v =>
    if k = key then (key, v) :: rest else (k, w) :: mapSet rest key v

/-- Models Map.prototype.delete: drop every binding for the key (a JS Map holds
at most one, so on map-shaped lists this agrees with deleting that one). -/
def mapDelete {α : Type} (m : List (String × α)) (key : String) : List (String × α) :=
  m.filter (fun e => e.1 != key)

/-- Hex digit used for JSON control-character escapes. -/
def hexDigit (n : Nat) : String :=
  if n < 10 then toString n
  else if n = 10 then "a" else if n = 11 then "b" else if n = 12 then "c"
  else if n = 13 then "d" else if n = 14 then "e" else "f"

/-- Four-digit hex rendering used for the JSON \u escape. -/
def hex4 (n : Nat) : String :=
  hexDigit (n / 4096 % 16) ++ hexDigit (n / 256 % 16) ++ hexDigit (n / 16 % 16) ++
    hexDigit (n % 16)

/-- Escape of a single character inside a JSON string literal, following
JSON.stringify. -/
def escapeChar (c : Char) : String :=
  if c = '"' then "\\\""
  else if c = '\\' then "\\\\"
  else if c = '\x08' then "\\b"
  else if c = '\x09' then "\\t"
  else if c = '\x0a' then "\\n"
  else if c = '\x0c' then "\\f"
  else if c = '\x0d' then "\\r"
  else if c.toNat < 32 then "\\u" ++ hex4 c.toNat
  else String.singleton c

/-- JSON string literal rendering (quotes plus escaped contents). -/
def renderString (s : String) : String :=
  s.data.foldl (fun acc c => acc ++ escapeChar c) "\"" ++ "\""

mutual

/-- Rendering of a defined JS value to its JSON text, following JSON.stringify
(insertion order of object fields is preserved). -/
def renderJs : JsValue → String
  | .null => "null"
  | .bool true => "true"
  | .bool false => "false"
  | .num n => toString n
  | .str s => renderString s
  | .arr xs => "[" ++ renderArr xs ++ "]"
  | .obj fs => "\x7b" ++ renderObj fs ++ "\x7d"

/-- Comma-separated rendering of JSON array elements. -/
def renderArr : List JsValue → String
  | [] => ""
  | [x] => renderJs x
  | x :: y :: xs => renderJs x ++ "," ++ renderArr (y :: xs)

/-- Comma-separated rendering of JSON object fields. -/
def renderObj : List (String × JsValue) → String
  | [] => ""
  | [(k, v)] => renderString k ++ ":" ++ renderJs v
  | (k, v) :: y :: xs => renderString k ++ ":" ++ renderJs v ++ "," ++ renderObj (y :: xs)

end

/-- Models JSON.stringify on a possibly-undefined value: stringifying undefined
yields undefined (none), not a string. -/
def jsonStringify : Option JsValue → Option String
  | none => none
  | some v => some (renderJs v)

/-- Models JSON.stringify on the two-field object literal with keys status and
data, as written in the HTTP and WebSocket handlers: a data slot holding
undefined is dropped from the rendered object, per JSON.stringify. -/
def stringifyEnvelope (status : Int) (data : Option JsValue) : String :=
  match data with
  | some d => renderJs (.obj [("status", .num status), ("data", d)])
  | none => renderJs (.obj [("status", .num status)])

/-- UTF-8 byte length of a string; models Buffer.from(s).byteLength for a JS
string s. -/
def utf8ByteLength (s : String) : Nat :=
  (s.data.map Char.utf8Size).sum

/-- Models the JavaScript String.prototype.endsWith check used on route names. -/
def jsEndsWith (s suffix : String) : Bool :=
  suffix.data.isSuffixOf s.data

/-- Errors thrown by adapter code and escaping a handler: the TypeError raised
by Buffer.from(undefined), an Assert.isNotNull failure, and an unstructured
(non-ResponseError) failure rethrown from the router. -/
inductive RunError where
  | bufferFromUndefined : RunError
  | assertionFailed : RunError
  | routerFault : RunError
deriving DecidableEq

/-- Value of ERROR_CODES.ERROR from rpc/adapters/errors.ts (that file is not in
the file set; the spec fixes the code for unstructured failures to "ERROR"). -/
def ERROR_CODES_ERROR : String := "ERROR"

/-- The IpcError wire payload shape: code, message, optional stack. -/
structure IpcError where
  code : String
  message : String
  stack : Option String
deriving DecidableEq

/-- A JS error reaching renderError: either a plain Error or a ResponseError
(the structured error type from rpc/adapters/errors.ts, carrying a status and a
code). -/
inductive JsError where
  | plainError (message : String) (stack : Option String) : JsError
  | responseError (status : Int) (code : String) (message : String)
      (stack : Option String) : JsError

/-- Embeds RpcIpcAdapter.renderError: the payload code is the structured
error's own code for a ResponseError and ERROR_CODES.ERROR otherwise. -/
def renderError : JsError → IpcError
  | .plainError m stk => { code := ERROR_CODES_ERROR, message := m, stack := stk }
  | .responseError _ c m stk => { code := c, message := m, stack := stk }

/-- The IpcError payload as the JS object value that is emitted and stringified;
an undefined stack field is dropped by JSON.stringify. -/
def ipcErrorToJs (e : IpcError) : JsValue :=
  match e.stack with
  | some stk => .obj [("code", .str e.code), ("message", .str e.message), ("stack", .str stk)]
  | none => .obj [("code", .str e.code), ("message", .str e.message)]

/-- The rendered payload of new Error("Malformed request rejected"), with the
runtime-dependent stack passed in as a parameter. -/
def malformedError (stk : Option String) : IpcError :=
  renderError (JsError.plainError "Malformed request rejected" stk)

/-- Modelled from the spec: the Traffic Meter (src/metrics/meter.ts is not in
the file set) is a rolling byte counter with a start/stop lifecycle and an
add(bytes) operation; only the running flag and the accumulated byte total are
observable here. -/
structure Meter where
  running : Bool
  totalBytes : Nat
deriving DecidableEq

/-- Meter.start marks the meter running. -/
def Meter.start (m : Meter) : Meter := { m with running := true }

/-- Meter.add accumulates outbound or inbound bytes. -/
def Meter.add (m : Meter) (bytes : Nat) : Meter := { m with totalBytes := m.totalBytes + bytes }

/-- Modelled from the spec: RpcRequest (src/rpc/request.ts is not in the file
set) is the Request Context; only its correlation id and closed flag are
needed here. Per the spec, close() marks the context closed without emitting
any wire traffic. -/
structure RpcRequest where
  mid : Int
  closed : Bool
deriving DecidableEq

/-- RpcRequest.close marks the context closed (forced external close). -/
def RpcRequest.close (r : RpcRequest) : RpcRequest := { r with closed := true }

/-- The IpcAdapterConnectionInfo union type: an IPC socket path or a TCP
host and port. -/
inductive IpcAdapterConnectionInfo where
  | ipc (socketPath : String) : IpcAdapterConnectionInfo
  | tcp (host : String) (port : Int) : IpcAdapterConnectionInfo
deriving DecidableEq

/-- Mutable fields of the RpcIpcAdapter class. The nullable object fields
server, ipc, httpServer and wsServer are modelled by flags stating whether they
are non-null; the router field is modelled per call by the router argument of
onMessage. -/
structure RpcIpcAdapter where
  pending : List (String × List RpcRequest)
  started : Bool
  connection : IpcAdapterConnectionInfo
  inboundTraffic : Meter
  outboundTraffic : Meter
  serverStarted : Bool
  ipcCreated : Bool
  httpServerCreated : Bool
  wsServerCreated : Bool
deriving DecidableEq

/-- Wire traffic emitted on the node-ipc channel: a Response (server.emit with
event name message), a StreamChunk (event name stream), or a connection-scoped
malformedRequest event. -/
inductive WireEmit where
  | message (socketId : String) (id : Int) (status : Int) (data : Option JsValue) : WireEmit
  | stream (socketId : String) (id : Int) (data : Option JsValue) : WireEmit
  | malformedRequest (socketId : String) (payload : JsValue) : WireEmit

/-- Result of one adapter operation: the updated adapter, the wire traffic it
emitted in order, and the error it threw, if any. -/
abbrev StepResult := RpcIpcAdapter × List WireEmit × Option RunError

/-- Embeds RpcIpcAdapter.emitResponse: assert the server is non-null, emit the
response message, then add the byte length of JSON.stringify(data) to the
outbound meter; Buffer.from throws when data is undefined. -/
def RpcIpcAdapter.emitResponse (st : RpcIpcAdapter) (socketId : String) (messageId : Int)
    (status : Int) (data : Option JsValue) : StepResult :=
  if st.serverStarted then
    match jsonStringify data with
    | some s =>
      ({ st with outboundTraffic := st.outboundTraffic.add (utf8ByteLength s) },
        [WireEmit.message socketId messageId status data], none)
    | none => (st, [WireEmit.message socketId messageId status data], some RunError.bufferFromUndefined)
  else (st, [], some RunError.assertionFailed)

/-- Embeds RpcIpcAdapter.emitStream: same as emitResponse but with a stream
chunk instead of a response message. -/
def RpcIpcAdapter.emitStream (st : RpcIpcAdapter) (socketId : String) (messageId : Int)
    (data : Option JsValue) : StepResult :=
  if st.serverStarted then
    match jsonStringify data with
    | some s =>
      ({ st with outboundTraffic := st.outboundTraffic.add (utf8ByteLength s) },
        [WireEmit.stream socketId messageId data], none)
    | none => (st, [WireEmit.stream socketId messageId data], some RunError.bufferFromUndefined)
  else (st, [], some RunError.assertionFailed)

/-- Embeds the guard of handleMalformedRequest: the original message must be a
non-null JS object carrying a property named id whose value is a number. Arrays
have no id property, so only object values can pass. -/
def jsGetNumericId : Option JsValue → Option Int
  | some (JsValue.obj fields) =>
    match mapGet fields "id" with
    | some (JsValue.num n) => some n
    | _ => none
  | _ => none

/-- Embeds RpcIpcAdapter.handleMalformedRequest: render a plain Error payload;
if the raw message is an object with a numeric id property, answer with a
targeted 500 response using that id, otherwise emit a connection-scoped
malformedRequest event and account its payload bytes. -/
def RpcIpcAdapter.handleMalformedRequest (st : RpcIpcAdapter) (socketId : String)
    (data : Option JsValue) (errStack : Option String) : StepResult :=
  if st.serverStarted then
    let error := malformedError errStack
    match jsGetNumericId data with
    | some i => st.emitResponse socketId i 500 (some (ipcErrorToJs error))
    | none =>
      ({ st with outboundTraffic := st.outboundTraffic.add (utf8ByteLength (renderJs (ipcErrorToJs error))) },
        [WireEmit.malformedRequest socketId (ipcErrorToJs error)], none)
  else (st, [], some RunError.assertionFailed)

/-- The decoded IpcRequest shape from the source: mid, type (route name) and an
optional opaque data value. -/
structure IpcRequest where
  mid : Int
  type : String
  data : Option JsValue

/-- Embeds validation of an inbound message against IpcRequestSchema.
Modelled from the spec for the yup library semantics (schema internals are out
of scope; the spec fixes the contract): the value must be an object whose mid
property is present and numeric and whose type property is a present non-empty
string; data is passed through unvalidated; unknown extra properties are
tolerated. -/
def decodeIpcRequest : Option JsValue → Option IpcRequest
  | some (JsValue.obj fields) =>
    match mapGet fields "mid", mapGet fields "type" with
    | some (JsValue.num mid), some (JsValue.str t) =>
      if t = "" then none else some { mid := mid, type := t, data := mapGet fields "data" }
    | _, _ => none
  | _ => none

/-- One interaction the route handler performs with its Request Context during
the router's route invocation: a terminal respond or a stream chunk. These
reach the adapter through the two callbacks passed to the RpcRequest
constructor. -/
inductive RouterCall where
  | respond (status : Int) (data : Option JsValue) : RouterCall
  | stream (data : Option JsValue) : RouterCall

/-- Outcome of the router's route invocation: normal return, a thrown
ResponseError (structured), or any other thrown error (unstructured fault). -/
inductive RouterOutcome where
  | ok : RouterOutcome
  | responseError (status : Int) (code : String) (message : String)
      (stack : Option String) : RouterOutcome
  | fault : RouterOutcome

/-- Applies one Request Context callback on the node-ipc channel: respond runs
the closure wrapping emitResponse, stream the closure wrapping emitStream, both
bound to the request's socket and mid. -/
def RpcIpcAdapter.applyRouterCall (st : RpcIpcAdapter) (socketId : String) (mid : Int) :
    RouterCall → StepResult
  | RouterCall.respond status d => st.emitResponse socketId mid status d
  | RouterCall.stream d => st.emitStream socketId mid d

/-- Runs the route handler's context interactions in order; a throw from a
callback aborts the remaining interactions and propagates. -/
def RpcIpcAdapter.runRouterCalls (st : RpcIpcAdapter) (socketId : String) (mid : Int) :
    List RouterCall → StepResult
  | [] => (st, [], none)
  | c :: rest =>
    let r := st.applyRouterCall socketId mid c
    match r.2.2 with
    | some e => (r.1, r.2.1, some e)
    | none =>
      let r2 := r.1.runRouterCalls socketId mid rest
      (r2.1, r.2.1 ++ r2.2.1, r2.2.2)

/-- Embeds the try/catch around await router.route in onMessage: a thrown
ResponseError is answered with a terminal response carrying the error's status
and rendered payload; any other thrown error is rethrown. -/
def RpcIpcAdapter.routeTry (st : RpcIpcAdapter) (socketId : String) (mid : Int)
    (calls : List RouterCall) (outcome : RouterOutcome) : StepResult :=
  let r := st.runRouterCalls socketId mid calls
  match r.2.2 with
  | some e => (r.1, r.2.1, some e)
  | none =>
    match outcome with
    | RouterOutcome.ok => (r.1, r.2.1, none)
    | RouterOutcome.responseError status code m stk =>
      let r2 := r.1.emitResponse socketId mid status
        (some (ipcErrorToJs (renderError (JsError.responseError status code m stk))))
      (r2.1, r.2.1 ++ r2.2.1, r2.2.2)
    | RouterOutcome.fault => (r.1, r.2.1, some RunError.routerFault)

/-- Embeds RpcIpcAdapter.onMessage for the node-ipc (local socket / TCP)
channel. The socketId is the socket.id property (none when absent; the empty
string is also falsy in the guard). The router argument models this.router:
none for null, otherwise the context interactions the routed handler performs
followed by the route invocation's outcome. errStack is the runtime stack of
the Error created on the malformed path. -/
def RpcIpcAdapter.onMessage (st : RpcIpcAdapter) (socketId : Option String)
    (data : Option JsValue) (router : Option (List RouterCall × RouterOutcome))
    (errStack : Option String) : StepResult :=
  match socketId with
  | none => (st, [], none)
  | some sid =>
    if sid = "" then (st, [], none)
    else
      match decodeIpcRequest data with
      | none => st.handleMalformedRequest sid data errStack
      | some message =>
        match jsonStringify data with
        | none => (st, [], some RunError.bufferFromUndefined)
        | some raw =>
          let st1 := { st with inboundTraffic := st.inboundTraffic.add (utf8ByteLength raw) }
          match router with
          | none => (st1, [], some RunError.assertionFailed)
          | some (calls, outcome) =>
            if st1.serverStarted then
              let st2 := { st1 with pending := (mapSet st1.pending sid
                ((mapGet st1.pending sid).getD [] ++ [RpcRequest.mk message.mid false])) }
              st2.routeTry sid message.mid calls outcome
            else (st1, [], some RunError.assertionFailed)

/-- Embeds RpcIpcAdapter.onDisconnect: when the disconnected socket carried an
id and has a pending entry, close every pending request and drop the entry.
The second component returns the requests the handler closed. -/
def RpcIpcAdapter.onDisconnect (st : RpcIpcAdapter) (socketId : Option String) :
    RpcIpcAdapter × List RpcRequest :=
  match socketId with
  | none => (st, [])
  | some sid =>
    match mapGet st.pending sid with
    | none => (st, [])
    | some reqs =>
      ({ st with pending := mapDelete st.pending sid }, reqs.map RpcRequest.close)

/-- Observable lifecycle actions the adapter's start method performs after its
started guard. -/
inductive StartAction where
  | startTrafficMeters : StartAction
  | createIpc : StartAction
  | serveIpc (socketPath : String) : StartAction
  | serveTcp (host : String) (port : Int) : StartAction
  | createHttpServer : StartAction
  | createWsServer : StartAction
  | httpListen (host : String) (port : Int) : StartAction
deriving DecidableEq

/-- Embeds RpcIpcAdapter.start: a no-op when already started; otherwise mark
started, start both traffic meters, create the node-ipc instance and serve on
the configured address, additionally binding the companion HTTP and WebSocket
servers on port + 1 in TCP mode. -/
def RpcIpcAdapter.start (st : RpcIpcAdapter) : RpcIpcAdapter × List StartAction :=
  if st.started then (st, [])
  else
    let st1 := { st with
      started := true,
      inboundTraffic := st.inboundTraffic.start,
      outboundTraffic := st.outboundTraffic.start,
      ipcCreated := true }
    match st.connection with
    | IpcAdapterConnectionInfo.ipc path =>
      ({ st1 with serverStarted := true },
        [StartAction.startTrafficMeters, StartAction.createIpc, StartAction.serveIpc path])
    | IpcAdapterConnectionInfo.tcp host port =>
      ({ st1 with serverStarted := true, httpServerCreated := true, wsServerCreated := true },
        [StartAction.startTrafficMeters, StartAction.createIpc,
          StartAction.serveTcp host port, StartAction.createHttpServer,
          StartAction.createWsServer, StartAction.httpListen host (port + 1)])

/-- Observable effects on an http.ServerResponse object. -/
inductive HttpAct where
  | writeHead (status : Int) (contentTypeJson : Bool) : HttpAct
  | write (body : String) : HttpAct
  | endResponse : HttpAct
deriving DecidableEq

/-- Embeds the respond callback the HTTP listener passes to its Request
Context: write the HTTP status with JSON headers, then write the JSON envelope
with keys status and data. -/
def httpRespondCallback (status : Int) (data : Option JsValue) : List HttpAct :=
  [HttpAct.writeHead status true, HttpAct.write (stringifyEnvelope status data)]

/-- Embeds the stream callback the HTTP listener passes to its Request
Context: write HTTP status 200 with JSON headers, then write the JSON envelope
with keys status (fixed at 200) and data holding the chunk. -/
def httpStreamCallback (data : Option JsValue) : List HttpAct :=
  [HttpAct.writeHead 200 true, HttpAct.write (stringifyEnvelope 200 data)]

/-- Dispatch of one Request Context interaction to the matching HTTP
callback. -/
def httpCallActs : RouterCall → List HttpAct
  | RouterCall.respond s d => httpRespondCallback s d
  | RouterCall.stream d => httpStreamCallback d

/-- Embeds the HTTP request handler from the point where the Request Context
is constructed: run the handler's context interactions through the two HTTP
callbacks, then translate the route invocation's outcome (a ResponseError is
answered with its status and rendered payload in the same envelope shape; any
other throw is rethrown), with response.end() running on every exit path via
the finally block. The router argument models this.router (none for null). -/
def httpHandler (router : Option (List RouterCall × RouterOutcome)) :
    List HttpAct × Option RunError :=
  match router with
  | none => ([HttpAct.endResponse], none)
  | some (calls, outcome) =>
    let callActs := (calls.map httpCallActs).flatten
    match outcome with
    | RouterOutcome.ok => (callActs ++ [HttpAct.endResponse], none)
    | RouterOutcome.responseError s code m stk =>
      (callActs ++
        [HttpAct.writeHead s true,
          HttpAct.write (stringifyEnvelope s
            (some (ipcErrorToJs (renderError (JsError.responseError s code m stk)))))] ++
        [HttpAct.endResponse], none)
    | RouterOutcome.fault => (callActs ++ [HttpAct.endResponse], some RunError.routerFault)

/-- Observable effects on a WebSocket client: a send (whose body is undefined
when the handler streamed an undefined chunk, since JSON.stringify(undefined)
is undefined) or closing the socket. -/
inductive WsAct where
  | send (body : Option String) : WsAct
  | closeSocket : WsAct
deriving DecidableEq

/-- Embeds the WebSocket connection handler from the point where the route
name has been parsed: a route name not ending in the Stream suffix closes the
socket before the Request Context is created or the router consulted.
Otherwise the handler's context interactions are serialized to the socket
(respond sends the status and data envelope, stream sends the raw stringified
chunk); a thrown ResponseError is answered through the context's end (which
runs the respond callback on the still-open context) and the socket closed;
any other throw closes the socket and is rethrown. The middle component
reports whether the router's route method was invoked. -/
def wsHandler (route : String) (router : Option (List RouterCall × RouterOutcome)) :
    List WsAct × Bool × Option RunError :=
  if jsEndsWith route "Stream" = false then ([WsAct.closeSocket], false, none)
  else
    match router with
    | none => ([], false, none)
    | some (calls, outcome) =>
      let sends := (calls.map (fun c =>
        match c with
        | RouterCall.respond s d => [WsAct.send (some (stringifyEnvelope s d))]
        | RouterCall.stream d => [WsAct.send (jsonStringify d)])).flatten
      match outcome with
      | RouterOutcome.ok => (sends, true, none)
      | RouterOutcome.responseError s code m stk =>
        (sends ++
          [WsAct.send (some (stringifyEnvelope s
            (some (ipcErrorToJs (renderError (JsError.responseError s code m stk)))))),
            WsAct.closeSocket], true, none)
      | RouterOutcome.fault => (sends ++ [WsAct.closeSocket], true, some RunError.routerFault)

/-- Modelled from the spec: the Block Chunk Codec (network/utils/block.ts is
not in the file set; only its test is). A block is a fixed-size header byte
blob plus a list of variable-length transaction byte blobs; bytes are
modelled as natural numbers. -/
structure Block where
  header : List Nat
  transactions : List (List Nat)
deriving DecidableEq

/-- Modelled from the spec: a varint encoding of a natural number (the spec
fixes only that counts and lengths are varint-encoded; a little-endian base
128 varint is used here). -/
def writeVarint (n : Nat) : List Nat :=
  if h : n < 128 then [n]
  else (n % 128 + 128) :: writeVarint (n / 128)
decreasing_by
  exact Nat.div_lt_self (by omega) (by omega)

/-- Modelled from the spec: varint decoding, the inverse reader; returns the
decoded value and the unconsumed bytes. -/
def readVarint : List Nat → Option (Nat × List Nat)
  | [] => none
  | b :: bs =>
    if b < 128 then some (b, bs)
    else
      match readVarint bs with
      | none => none
      | some (n, rest) => some (n * 128 + (b - 128), rest)

/-- Modelled from the spec: the wire shape of one transaction inside a block
chunk, its varint length prefix followed by its bytes. -/
def txChunk (tx : List Nat) : List Nat :=
  writeVarint tx.length ++ tx

/-- Modelled from the spec: writeBlock emits the header bytes, the varint
transaction count, then each transaction length-prefixed, in order. -/
def writeBlock (b : Block) : List Nat :=
  b.header ++ writeVarint b.transactions.length ++ (b.transactions.map txChunk).flatten

/-- Modelled from the spec: getBlockSize computes the exact encoded size,
header size plus the varint of the transaction count plus, per transaction,
its varint length prefix plus its bytes. -/
def getBlockSize (b : Block) : Nat :=
  b.header.length + (writeVarint b.transactions.length).length +
    (b.transactions.map (fun tx => (writeVarint tx.length).length + tx.length)).sum

/-- Modelled from the spec: reads the given number of length-prefixed
transactions, failing on truncated input. -/
def readTxs : Nat → List Nat → Option (List (List Nat) × List Nat)
  | 0, bs => some ([], bs)
  | Nat.succ k, bs =>
    match readVarint bs with
    | none => none
    | some (len, bs1) =>
      if len ≤ bs1.length then
        match readTxs k (bs1.drop len) with
        | none => none
        | some (txs, rest) => some (bs1.take len :: txs, rest)
      else none

/-- Modelled from the spec: readBlock is the decoder inverse to writeBlock; it
consumes the fixed-size header, the varint transaction count and the
transactions, returning the block and the unconsumed bytes. -/
def readBlock (headerSize : Nat) (bs : List Nat) : Option (Block × List Nat) :=
  if headerSize ≤ bs.length then
    match readVarint (bs.drop headerSize) with
    | none => none
    | some (count, bs1) =>
      match readTxs count bs1 with
      | none => none
      | some (txs, rest) => some (Block.mk (bs.take headerSize) txs, rest)
  else none

theorem readVarint_writeVarint (n : Nat) (rest : List Nat) :
    readVarint (writeVarint n ++ rest) = some (n, rest) := by
  induction n using Nat.strong_induction_on with
  | _ n ih =>
    rw [writeVarint]
    by_cases h : n < 128
    · simp [h, readVarint]
    · simp only [h, dite_false, List.cons_append, readVarint]
      have h2 : ¬ (n % 128 + 128 < 128) := by omega
      simp only [h2, if_false]
      rw [ih (n / 128) (Nat.div_lt_self (by omega) (by omega))]
      simp only [Option.some.injEq, Prod.mk.injEq]
      exact ⟨by omega, trivial⟩

theorem readTxs_roundtrip (txs : List (List Nat)) (rest : List Nat) :
    readTxs txs.length ((txs.map txChunk).flatten ++ rest) = some (txs, rest) := by
  induction txs generalizing rest with
  | nil => simp [readTxs]
  | cons tx txs ih =>
    simp only [List.map_cons, List.flatten_cons, List.length_cons, readTxs, txChunk]
    rw [List.append_assoc, List.append_assoc, readVarint_writeVarint]
    have hle : tx.length ≤ (tx ++ ((txs.map txChunk).flatten ++ rest)).length := by
      simp [List.length_append]
    simp only [hle, if_true]
    rw [List.take_left, List.drop_left, ih]

theorem readBlock_writeBlock (b : Block) (rest : List Nat) :
    readBlock b.header.length (writeBlock b ++ rest) = some (b, rest) := by
  cases b with
  | mk header txs =>
    simp only [writeBlock, readBlock]
    rw [List.append_assoc, List.append_assoc]
    have hle : header.length ≤ (header ++ (writeVarint txs.length ++ ((txs.map txChunk).flatten ++ rest))).length := by
      simp [List.length_append]
    simp only [hle, if_true]
    rw [List.take_left, List.drop_left, readVarint_writeVarint]
    simp [readTxs_roundtrip]

theorem flatten_txChunk_length (txs : List (List Nat)) :
    ((txs.map txChunk).flatten).length =
      (txs.map (fun tx => (writeVarint tx.length).length + tx.length)).sum := by
  induction txs with
  | nil => simp
  | cons tx txs ih =>
    simp [txChunk, ih, List.length_append]
    omega

theorem writeBlock_length (b : Block) : (writeBlock b).length = getBlockSize b := by
  cases b with
  | mk header txs =>
    simp only [writeBlock, getBlockSize, List.length_append, flatten_txChunk_length]
    try omega

/-- Claim C7: for every block consisting of a header byte blob and a list of
transaction byte blobs, decoding the encoder's output (followed by any
trailing bytes) yields the identical block with exactly the trailing bytes
unconsumed, and the encoder writes exactly getBlockSize many bytes. -/
theorem block_roundtrip_and_size (b : Block) (rest : List Nat) :
    readBlock b.header.length (writeBlock b ++ rest) = some (b, rest) ∧
    (writeBlock b).length = getBlockSize b :=
  ⟨readBlock_writeBlock b rest, writeBlock_length b⟩

theorem mapGet_mapDelete {α : Type} (m : List (String × α)) (k : String) :
    mapGet (mapDelete m k) k = none := by
  induction m with
  | nil => rfl
  | cons e rest ih =>
    cases e with
    | mk k0 v0 =>
      by_cases h : k0 = k
      · subst h
        simpa [mapDelete, List.filter_cons] using ih
      · have hb : (k0 != k) = true := by simp [h]
        simpa [mapDelete, List.filter_cons, hb, mapGet, h] using ih

theorem mapGet_mapSet_self {α : Type} (m : List (String × α)) (k : String) (v : α) :
    mapGet (mapSet m k v) k = some v := by
  induction m with
  | nil => simp [mapSet, mapGet]
  | cons e rest ih =>
    cases e with
    | mk k0 v0 =>
      by_cases h : k0 = k
      · simp [mapSet, mapGet, h]
      · simp [mapSet, mapGet, h, ih]

theorem emitResponse_pending (st : RpcIpcAdapter) (sid : String) (mid status : Int)
    (d : Option JsValue) : (st.emitResponse sid mid status d).1.pending = st.pending := by
  unfold RpcIpcAdapter.emitResponse
  by_cases h : st.serverStarted = true <;> cases d <;> simp [h, jsonStringify]

theorem emitStream_pending (st : RpcIpcAdapter) (sid : String) (mid : Int)
    (d : Option JsValue) : (st.emitStream sid mid d).1.pending = st.pending := by
  unfold RpcIpcAdapter.emitStream
  by_cases h : st.serverStarted = true <;> cases d <;> simp [h, jsonStringify]

theorem applyRouterCall_pending (st : RpcIpcAdapter) (sid : String) (mid : Int)
    (c : RouterCall) : (st.applyRouterCall sid mid c).1.pending = st.pending := by
  cases c with
  | respond status d => exact emitResponse_pending st sid mid status d
  | stream d => exact emitStream_pending st sid mid d

theorem runRouterCalls_pending (st : RpcIpcAdapter) (sid : String) (mid : Int)
    (calls : List RouterCall) : (st.runRouterCalls sid mid calls).1.pending = st.pending := by
  induction calls generalizing st with
  | nil => rfl
  | cons c rest ih =>
    simp only [RpcIpcAdapter.runRouterCalls]
    cases hr : (st.applyRouterCall sid mid c).2.2 with
    | some e => simpa [hr] using applyRouterCall_pending st sid mid c
    | none =>
      simp only [hr]
      rw [ih]
      exact applyRouterCall_pending st sid mid c

theorem emitResponse_serverStarted (st : RpcIpcAdapter) (sid : String) (mid status : Int)
    (d : Option JsValue) : (st.emitResponse sid mid status d).1.serverStarted = st.serverStarted := by
  unfold RpcIpcAdapter.emitResponse
  by_cases h : st.serverStarted = true <;> cases d <;> simp [h, jsonStringify]

theorem emitStream_serverStarted (st : RpcIpcAdapter) (sid : String) (mid : Int)
    (d : Option JsValue) : (st.emitStream sid mid d).1.serverStarted = st.serverStarted := by
  unfold RpcIpcAdapter.emitStream
  by_cases h : st.serverStarted = true <;> cases d <;> simp [h, jsonStringify]

theorem applyRouterCall_serverStarted (st : RpcIpcAdapter) (sid : String) (mid : Int)
    (c : RouterCall) : (st.applyRouterCall sid mid c).1.serverStarted = st.serverStarted := by
  cases c with
  | respond status d => exact emitResponse_serverStarted st sid mid status d
  | stream d => exact emitStream_serverStarted st sid mid d

theorem runRouterCalls_serverStarted (st : RpcIpcAdapter) (sid : String) (mid : Int)
    (calls : List RouterCall) :
    (st.runRouterCalls sid mid calls).1.serverStarted = st.serverStarted := by
  induction calls generalizing st with
  | nil => rfl
  | cons c rest ih =>
    simp only [RpcIpcAdapter.runRouterCalls]
    cases hr : (st.applyRouterCall sid mid c).2.2 with
    | some e => simpa [hr] using applyRouterCall_serverStarted st sid mid c
    | none =>
      simp only [hr]
      rw [ih]
      exact applyRouterCall_serverStarted st sid mid c

theorem routeTry_pending (st : RpcIpcAdapter) (sid : String) (mid : Int)
    (calls : List RouterCall) (outcome : RouterOutcome) :
    (st.routeTry sid mid calls outcome).1.pending = st.pending := by
  unfold RpcIpcAdapter.routeTry
  cases hr : (st.runRouterCalls sid mid calls).2.2 with
  | some e => simpa [hr] using runRouterCalls_pending st sid mid calls
  | none =>
    cases outcome with
    | ok => simpa [hr] using runRouterCalls_pending st sid mid calls
    | responseError status code m stk =>
      simp only [hr]
      rw [emitResponse_pending]
      exact runRouterCalls_pending st sid mid calls
    | fault => simpa [hr] using runRouterCalls_pending st sid mid calls

/-- A concrete adapter state (TCP mode, started, node-ipc server up, empty
pending registry) used by the witnesses and counterexamples below. -/
def sampleAdapter : RpcIpcAdapter :=
  { pending := [],
    started := true,
    connection := IpcAdapterConnectionInfo.tcp "localhost" 8020,
    inboundTraffic := { running := true, totalBytes := 0 },
    outboundTraffic := { running := true, totalBytes := 0 },
    serverStarted := true,
    ipcCreated := true,
    httpServerCreated := true,
    wsServerCreated := true }

/-- Claim C9: calling start when the adapter is already started returns
immediately and changes nothing: the adapter state (including both traffic
meters, all server fields and the pending registry) keeps its prior value and
no lifecycle action is performed. -/
theorem start_noop_when_started (st : RpcIpcAdapter) (h : st.started = true) :
    st.start = (st, []) := by
  unfold RpcIpcAdapter.start
  simp [h]

theorem start_noop_when_started_witness :
    RpcIpcAdapter.start sampleAdapter = (sampleAdapter, []) :=
  start_noop_when_started sampleAdapter rfl

/-- Claim C10: an inbound node-ipc message on a socket with no assigned id is
dropped before schema validation: no response, stream chunk or
malformedRequest event is emitted, no error is thrown, and the adapter state
(pending registry and both traffic meters included) is unchanged. -/
theorem onMessage_drops_unidentified_socket (st : RpcIpcAdapter) (data : Option JsValue)
    (router : Option (List RouterCall × RouterOutcome)) (errStack : Option String) :
    st.onMessage none data router errStack = (st, [], none) := rfl

/-- Claim C8: a WebSocket connection whose requested route name does not end
in the Stream suffix is closed immediately: the router is never invoked and no
chunk or response is sent. -/
theorem ws_rejects_non_stream_route (route : String)
    (router : Option (List RouterCall × RouterOutcome))
    (h : jsEndsWith route "Stream" = false) :
    wsHandler route router = ([WsAct.closeSocket], false, none) := by
  unfold wsHandler
  simp [h]

theorem ws_rejects_non_stream_route_witness :
    wsHandler "chain/getBlock" (some ([RouterCall.stream (some JsValue.null)], RouterOutcome.ok)) =
      ([WsAct.closeSocket], false, none) :=
  ws_rejects_non_stream_route "chain/getBlock" _ (by decide)

/-- Claim C4: a disconnect event for a connection id closes every request
context pending under that id (as many as were registered, each marked closed)
and deletes the connection's entry from the pending map, so no context remains
registered under that id. -/
theorem disconnect_closes_all_pending (st : RpcIpcAdapter) (sid : String) :
    mapGet (st.onDisconnect (some sid)).1.pending sid = none ∧
    (st.onDisconnect (some sid)).2.length = ((mapGet st.pending sid).getD []).length ∧
    (st.onDisconnect (some sid)).2.all (fun r => r.closed) = true := by
  unfold RpcIpcAdapter.onDisconnect
  cases hg : mapGet st.pending sid with
  | none => simp [hg]
  | some reqs =>
    refine ⟨?_, ?_, ?_⟩
    · simp [hg, mapGet_mapDelete]
    · simp [hg]
    · simp [hg, List.all_eq_true, RpcRequest.close]

/-- Claim C1 counterexample: an HTTP route handler that streams the concrete
chunk "x" does not produce a write of the chunk's raw JSON encoding after
status 200; the body written is the enveloped form instead. -/
theorem httpStream_envelope_counterexample :
    (httpHandler (some ([RouterCall.stream (some (JsValue.str "x"))], RouterOutcome.ok))).1 ≠
      [HttpAct.writeHead 200 true, HttpAct.write (renderJs (JsValue.str "x")),
        HttpAct.endResponse] := by
  decide

/-- Claim C1 amended: when an HTTP route handler invokes the Request Context's
stream callback with a chunk, the listener writes HTTP status 200 and then the
chunk wrapped in the JSON envelope with keys status (200) and data — the same
envelope shape respond uses — rather than the chunk's raw JSON encoding. -/
theorem httpStream_writes_envelope (pre post : List RouterCall) (d : JsValue) :
    (httpHandler (some (pre ++ RouterCall.stream (some d) :: post, RouterOutcome.ok))).1 =
      (pre.map httpCallActs).flatten ++
        HttpAct.writeHead 200 true ::
        HttpAct.write (renderJs (JsValue.obj [("status", JsValue.num 200), ("data", d)])) ::
        ((post.map httpCallActs).flatten ++ [HttpAct.endResponse]) := by
  simp [httpHandler, httpCallActs, httpStreamCallback, stringifyEnvelope,
    List.map_append, List.flatten_append, List.append_assoc]

/-- Claim C2 counterexample: the inbound message carrying only a numeric mid
field fails schema validation (it has no type), yet the adapter emits a
connection-scoped malformedRequest event rather than a targeted error response
using that mid. -/
theorem malformed_mid_counterexample :
    (sampleAdapter.onMessage (some "s1") (some (JsValue.obj [("mid", JsValue.num 5)]))
        (some ([], RouterOutcome.ok)) none).2.1 =
      [WireEmit.malformedRequest "s1" (ipcErrorToJs (malformedError none))] := by
  rfl

/-- Claim C2 amended: on schema-validation failure, the adapter answers with a
targeted 500 error response exactly when the original message is an object
carrying a present numeric id property; a mid field is not consulted, so any
other malformed message (including one whose only numeric correlation field is
mid) gets a connection-scoped malformedRequest event and no targeted
response. -/
theorem malformed_targets_only_id (st : RpcIpcAdapter) (sid : String) (data : Option JsValue)
    (router : Option (List RouterCall × RouterOutcome)) (stk : Option String)
    (hsid : sid ≠ "") (hval : decodeIpcRequest data = none) (hs : st.serverStarted = true) :
    (st.onMessage (some sid) data router stk).2.1 =
      match jsGetNumericId data with
      | some i => [WireEmit.message sid i 500 (some (ipcErrorToJs (malformedError stk)))]
      | none => [WireEmit.malformedRequest sid (ipcErrorToJs (malformedError stk))] := by
  unfold RpcIpcAdapter.onMessage
  simp only [hsid, if_false, hval]
  unfold RpcIpcAdapter.handleMalformedRequest
  cases hid : jsGetNumericId data with
  | some i =>
    simp only [hid, hs, if_true]
    unfold RpcIpcAdapter.emitResponse
    simp [hs, jsonStringify]
  | none => simp [hid, hs]

theorem malformed_targets_only_id_witness :
    (sampleAdapter.onMessage (some "s1") (some (JsValue.obj [("id", JsValue.num 7)]))
        (some ([], RouterOutcome.ok)) none).2.1 =
      [WireEmit.message "s1" 7 500 (some (ipcErrorToJs (malformedError none)))] :=
  malformed_targets_only_id sampleAdapter "s1"
    (some (JsValue.obj [("id", JsValue.num 7)])) (some ([], RouterOutcome.ok)) none
    (by decide) rfl rfl

/-- Claim C3 counterexample: a request on the node-ipc channel whose handler
ran the respond callback (the response message was emitted) is still present
in the pending map entry for its connection id after onMessage completes;
natural terminal completion does not remove it. -/
theorem respond_leaves_pending_counterexample :
    mapGet ((sampleAdapter.onMessage (some "s1")
        (some (JsValue.obj [("mid", JsValue.num 1), ("type", JsValue.str "foo")]))
        (some ([RouterCall.respond 200 (some JsValue.null)], RouterOutcome.ok)) none).1).pending
        "s1" =
      some [RpcRequest.mk 1 false] ∧
    (sampleAdapter.onMessage (some "s1")
        (some (JsValue.obj [("mid", JsValue.num 1), ("type", JsValue.str "foo")]))
        (some ([RouterCall.respond 200 (some JsValue.null)], RouterOutcome.ok)) none).2.1 =
      [WireEmit.message "s1" 1 200 (some JsValue.null)] :=
  ⟨rfl, rfl⟩

/-- Claim C3 amended: a Request Context created on the node-ipc channel stays
registered in the pending map entry for its connection even after its respond
callback has run: onMessage appends it to the entry and nothing on the respond
path removes it (the entry is dropped only by a disconnect). -/
theorem pending_persists_after_respond (st : RpcIpcAdapter) (sid : String)
    (data : Option JsValue) (msg : IpcRequest) (calls : List RouterCall)
    (outcome : RouterOutcome) (stk : Option String)
    (hsid : sid ≠ "") (hval : decodeIpcRequest data = some msg)
    (hs : st.serverStarted = true) :
    mapGet (st.onMessage (some sid) data (some (calls, outcome)) stk).1.pending sid =
      some ((mapGet st.pending sid).getD [] ++ [RpcRequest.mk msg.mid false]) := by
  cases data with
  | none => simp [decodeIpcRequest] at hval
  | some v =>
    unfold RpcIpcAdapter.onMessage
    simp only [hsid, if_false, hval, jsonStringify, hs, if_true]
    rw [routeTry_pending]
    exact mapGet_mapSet_self _ _ _

theorem pending_persists_after_respond_witness :
    mapGet ((sampleAdapter.onMessage (some "s2")
        (some (JsValue.obj [("mid", JsValue.num 3), ("type", JsValue.str "bar")]))
        (some ([RouterCall.respond 200 (some (JsValue.num 9))], RouterOutcome.ok)) none).1).pending
        "s2" =
      some [RpcRequest.mk 3 false] :=
  pending_persists_after_respond sampleAdapter "s2"
    (some (JsValue.obj [("mid", JsValue.num 3), ("type", JsValue.str "bar")]))
    (IpcRequest.mk 3 "bar" none)
    [RouterCall.respond 200 (some (JsValue.num 9))] RouterOutcome.ok none
    (by decide) rfl rfl

/-- Claim C5: on the node-ipc channel, when the route invocation throws a
structured ResponseError, the adapter answers with a terminal response whose
status is the error's declared status and whose data is the rendered error
payload carrying the structured error's own code, and no error escapes; when
the route invocation fails with any non-structured error, nothing further is
emitted and the error is rethrown instead of being answered; renderError
assigns the code ERROR to any plain (unstructured) error. -/
theorem structured_error_rendered_fault_rethrown (st : RpcIpcAdapter) (sid : String)
    (mid : Int) (calls : List RouterCall) (status : Int) (code m : String)
    (estk : Option String) (hs : st.serverStarted = true)
    (hok : (st.runRouterCalls sid mid calls).2.2 = none) :
    (st.routeTry sid mid calls (RouterOutcome.responseError status code m estk)).2.1 =
      (st.runRouterCalls sid mid calls).2.1 ++
        [WireEmit.message sid mid status
          (some (ipcErrorToJs (renderError (JsError.responseError status code m estk))))] ∧
    (st.routeTry sid mid calls (RouterOutcome.responseError status code m estk)).2.2 = none ∧
    (st.routeTry sid mid calls RouterOutcome.fault).2.1 =
      (st.runRouterCalls sid mid calls).2.1 ∧
    (st.routeTry sid mid calls RouterOutcome.fault).2.2 = some RunError.routerFault ∧
    renderError (JsError.responseError status code m estk) = IpcError.mk code m estk ∧
    (renderError (JsError.plainError m estk)).code = ERROR_CODES_ERROR := by
  have hss : (st.runRouterCalls sid mid calls).1.serverStarted = true := by
    rw [runRouterCalls_serverStarted]
    exact hs
  unfold RpcIpcAdapter.routeTry
  refine ⟨?_, ?_, ?_, ?_, rfl, rfl⟩ <;>
    simp [hok, RpcIpcAdapter.emitResponse, hss, jsonStringify]

theorem structured_error_rendered_fault_rethrown_witness :
    (sampleAdapter.routeTry "s1" 1 []
        (RouterOutcome.responseError 404 "not-found" "nope" none)).2.1 =
      [WireEmit.message "s1" 1 404
        (some (ipcErrorToJs (renderError (JsError.responseError 404 "not-found" "nope" none))))] ∧
    (sampleAdapter.routeTry "s1" 1 []
        (RouterOutcome.responseError 404 "not-found" "nope" none)).2.2 = none ∧
    (sampleAdapter.routeTry "s1" 1 [] RouterOutcome.fault).2.1 = [] ∧
    (sampleAdapter.routeTry "s1" 1 [] RouterOutcome.fault).2.2 = some RunError.routerFault ∧
    renderError (JsError.responseError 404 "not-found" "nope" none) =
      IpcError.mk "not-found" "nope" none ∧
    (renderError (JsError.plainError "nope" none)).code = ERROR_CODES_ERROR :=
  structured_error_rendered_fault_rethrown sampleAdapter "s1" 1 [] 404 "not-found" "nope" none
    rfl rfl

/-- Claim C6 (code bug exhibit): on the node-ipc channel, a respond or stream
whose data value is absent (undefined) emits its wire message but the traffic
accounting then throws the Buffer.from(undefined) TypeError, leaving the
outbound meter unchanged, so the accounting does not succeed for an absent
data value; with a defined data value the meter is incremented by exactly the
byte length of the JSON serialization of the data value alone (the string
"ab" serializes to four bytes, not the size of the full wire message). -/
theorem outbound_meter_throws_on_undefined_data :
    (sampleAdapter.emitResponse "s1" 1 200 none).2.2 = some RunError.bufferFromUndefined ∧
    (sampleAdapter.emitResponse "s1" 1 200 none).2.1 = [WireEmit.message "s1" 1 200 none] ∧
    (sampleAdapter.emitResponse "s1" 1 200 none).1.outboundTraffic =
      sampleAdapter.outboundTraffic ∧
    (sampleAdapter.emitStream "s1" 1 none).2.2 = some RunError.bufferFromUndefined ∧
    (sampleAdapter.emitResponse "s1" 1 200 (some (JsValue.str "ab"))).1.outboundTraffic.totalBytes =
      sampleAdapter.outboundTraffic.totalBytes + 4 ∧
    (sampleAdapter.emitResponse "s1" 1 200 (some (JsValue.str "ab"))).2.2 = none :=
  ⟨rfl, rfl, rfl, rfl, by decide, rfl⟩
